import Mathlib

/-!
Verification of the NWB I/O evaluation scripts.

This file shallowly embeds the configuration parsing, the chunked data
iterators, the read-benchmark index computations and the stats assembly of
`exp12_write_ophys.py`, `exp12_write_ophys_tiff_to_nwb.py` and
`exp12_read_ophys.py`, and proves/refutes the specified properties.
-/

namespace NWBEval

instance {ε α : Type} [DecidableEq ε] [DecidableEq α] :
    DecidableEq (Except ε α) := fun a b =>
  match a, b with
  | .ok x, .ok y => decidable_of_iff (x = y) (by simp)
  | .error x, .error y => decidable_of_iff (x = y) (by simp)
  | .ok _, .error _ => isFalse (by simp)
  | .error _, .ok _ => isFalse (by simp)

/-! ## Python `int()` on a string field

Model of `int(s)` for the whitespace-free fields produced by `str.split()`:
an optional sign followed by a non-empty run of decimal digits parses to an
integer; anything else raises `ValueError` (modelled as `none`).
-/

/-- Value accumulated from a run of decimal digit characters. -/
def digitsToNat (l : List Char) : ℕ :=
  l.foldl (fun a c => 10 * a + (c.toNat - 48)) 0

/-- `int()` on an unsigned digit string: fails unless the string is a
non-empty run of decimal digits. -/
def pyIntDigits? (l : List Char) : Option ℕ :=
  if !l.isEmpty && l.all Char.isDigit then some (digitsToNat l) else none

/-- Model of Python `int(s)` on a whitespace-free field: optional sign then
digits, `none` on `ValueError`. -/
def pyInt? (s : String) : Option ℤ :=
  match s.toList with
  | '-' :: rest => (pyIntDigits? rest).map (fun n => -(n : ℤ))
  | '+' :: rest => (pyIntDigits? rest).map (fun n => (n : ℤ))
  | l => (pyIntDigits? l).map (fun n => (n : ℤ))

/-- Error message for a failed `int()` conversion. -/
def intErr (s : String) : String :=
  "invalid literal for int with base 10: " ++ s

/-- ASCII lowering of one character, as `str.lower()` acts on the ASCII
config fields. -/
def pyCharLower (c : Char) : Char :=
  if 'A' ≤ c ∧ c ≤ 'Z' then Char.ofNat (c.toNat + 32) else c

/-- Model of `field.lower()` for ASCII fields. -/
def pyLower (s : String) : String :=
  (s.toList.map pyCharLower).asString

/-- `str.split(",")` on a character list: split at every comma, keeping
empty pieces (Python separator-split semantics). -/
def splitCommaAux : List Char → List Char → List (List Char)
  | [], acc => [acc.reverse]
  | ',' :: rest, acc => acc.reverse :: splitCommaAux rest []
  | c :: rest, acc => splitCommaAux rest (c :: acc)

/-- Model of `field.split(",")`. -/
def splitComma (s : String) : List String :=
  (splitCommaAux s.toList []).map List.asString

/-! ## Chunk-shape field resolution

`exp12_write_ophys.process_config` lines 49-54:
```
if params[0].lower() == "none":     chunksizes = None
elif params[0].lower() == "true":   chunksizes = True
else: chunksizes = tuple(map(int, params[0].split(",")))
```
`exp12_write_ophys_tiff_to_nwb.process_config` lines 101-104 are the same
except that there is no `"none"` branch.
-/

/-- Resolved chunk-shape specification: `contiguous` is Python `None`
(no chunking), `auto` is Python `True` (store-chosen chunks), `explicit`
is a tuple of integers. -/
inductive ChunkSpec where
  | contiguous : ChunkSpec
  | auto : ChunkSpec
  | explicit : List ℤ → ChunkSpec
  deriving DecidableEq, Repr

/-- `tuple(map(int, field.split(",")))`; `ValueError` when any
comma-separated component is not an integer literal. -/
def parseChunkTuple (field : String) : Except String ChunkSpec :=
  match (splitComma field).mapM pyInt? with
  | some l => .ok (.explicit l)
  | none => .error (intErr field)

/-- Chunk-shape resolution of the array-backed writer
(`exp12_write_ophys.process_config` lines 49-54). -/
def chunkSpecOphys (field : String) : Except String ChunkSpec :=
  if pyLower field = "none" then .ok .contiguous
  else if pyLower field = "true" then .ok .auto
  else parseChunkTuple field

/-- Chunk-shape resolution of the TIFF-backed writer
(`exp12_write_ophys_tiff_to_nwb.process_config` lines 101-104): no
`"none"` branch. -/
def chunkSpecTiff (field : String) : Except String ChunkSpec :=
  if pyLower field = "true" then .ok .auto
  else parseChunkTuple field

/-! ## Compression algorithm / filter id and codec parameters

`process_config` lines 57-72 (identical in both writers):
```
if params[2].lower() == "na": compr = str(params[1])
else:                         compr = int(params[2])

if params[1] == "gzip":                comp_op = int(params[4])
elif params[1] in ("lz4", "zstd"):     comp_op = (int(params[4]),)
elif params[1] == "zfp":               comp_op = (int(params[3]), 0, 0, 0, 0, 0)
elif params[1] in ("blosc-zstd", "blosc-lz4hc", "blosc-blosclz", "blosc-lz4"):
    comp_op = (0, 0, 0, 0, int(params[4]), 0, int(params[3]))
else:                                  comp_op = None
```
-/

/-- Compression selector: the codec name string, or the numeric filter id. -/
inductive Compr where
  | byName : String → Compr
  | byId : ℤ → Compr
  deriving DecidableEq, Repr

/-- Codec parameter value handed to `compression_opts`: a bare integer, an
integer tuple, or Python `None`. -/
inductive CompOp where
  | scalar : ℤ → CompOp
  | tuple : List ℤ → CompOp
  | none : CompOp
  deriving DecidableEq, Repr

/-- `process_config` lines 57-60: filter-id field `"na"`
(case-insensitive) selects the codec by name, otherwise the field is
parsed as the numeric filter id. -/
def comprSpec (name idField : String) : Except String Compr :=
  if pyLower idField = "na" then .ok (.byName name)
  else
    match pyInt? idField with
    | some n => .ok (.byId n)
    | Option.none => .error (intErr idField)

/-- `process_config` lines 63-72: codec-specific `compression_opts`
assembly. For the `blosc-*` family Python evaluates the tuple elements
left to right, so `int(params[4])` is converted before `int(params[3])`. -/
def compOpSpec (name p3 p4 : String) : Except String CompOp :=
  if name = "gzip" then
    match pyInt? p4 with
    | some n => .ok (.scalar n)
    | Option.none => .error (intErr p4)
  else if name = "lz4" ∨ name = "zstd" then
    match pyInt? p4 with
    | some n => .ok (.tuple [n])
    | Option.none => .error (intErr p4)
  else if name = "zfp" then
    match pyInt? p3 with
    | some n => .ok (.tuple [n, 0, 0, 0, 0, 0])
    | Option.none => .error (intErr p3)
  else if name = "blosc-zstd" ∨ name = "blosc-lz4hc" ∨ name = "blosc-blosclz"
      ∨ name = "blosc-lz4" then
    match pyInt? p4, pyInt? p3 with
    | some b, some a => .ok (.tuple [0, 0, 0, 0, b, 0, a])
    | Option.none, _ => .error (intErr p4)
    | some _, Option.none => .error (intErr p3)
  else .ok .none

/-! ## The parameter-processing front end of `process_config` -/

/-- The message of the `assert len(params) == 5` failure
(`exp12_write_ophys.py` line 46, `exp12_write_ophys_tiff_to_nwb.py`
lines 96-98). -/
def configFormatMsg (configNumber nParams : ℕ) : String :=
  "Config line " ++ toString configNumber ++
    " requires exactly 5 parameters, got " ++ toString nParams

/-- The row field-count check at the top of both `process_config`s. -/
def checkParamCount (configNumber : ℕ) (params : List String) :
    Except String Unit :=
  if params.length = 5 then .ok ()
  else .error (configFormatMsg configNumber params.length)

/-- Outcome of the parameter-processing prefix of `process_config`. -/
structure ConfigParsed where
  chunks : ChunkSpec
  compr : Compr
  compOp : CompOp
  deriving DecidableEq, Repr

/-- Parameter-processing prefix of the array-backed
`exp12_write_ophys.process_config` (lines 46-72): field-count assert, then
chunk shape, then compression selector, then codec parameters, failing in
that order. -/
def processParamsOphys (configNumber : ℕ) (params : List String) :
    Except String ConfigParsed :=
  match params with
  | [p0, p1, p2, p3, p4] => do
      let ch ← chunkSpecOphys p0
      let co ← comprSpec p1 p2
      let op ← compOpSpec p1 p3 p4
      pure ⟨ch, co, op⟩
  | _ => .error (configFormatMsg configNumber params.length)

/-- Parameter-processing prefix of the TIFF-backed
`exp12_write_ophys_tiff_to_nwb.process_config` (lines 96-122). -/
def processParamsTiff (configNumber : ℕ) (params : List String) :
    Except String ConfigParsed :=
  match params with
  | [p0, p1, p2, p3, p4] => do
      let ch ← chunkSpecTiff p0
      let co ← comprSpec p1 p2
      let op ← compOpSpec p1 p3 p4
      pure ⟨ch, co, op⟩
  | _ => .error (configFormatMsg configNumber params.length)

/-! ## TiffDataChunkIterator (`exp12_write_ophys_tiff_to_nwb.py` lines 26-83)

`__next__` (lines 47-66): raise `StopIteration` once `_current_frame`
reaches `len(tiff_files)`; otherwise read frames
`[_current_frame, min(_current_frame + buffer_frames, len(tiff_files)))`,
advance `_current_frame` to the end of that range, and yield a `DataChunk`
with that axis-0 selection.
-/

/-- Iterator state: total file count, buffer size and current position. -/
structure TiffIterState where
  nFiles : ℕ
  bufferFrames : ℕ
  currentFrame : ℕ
  deriving DecidableEq, Repr

/-- One `__next__` call: `none` is `StopIteration`, otherwise the yielded
axis-0 selection `[start, stop)` and the successor state. -/
def tiffNext (s : TiffIterState) : Option ((ℕ × ℕ) × TiffIterState) :=
  if s.nFiles ≤ s.currentFrame then none
  else
    let start := s.currentFrame
    let stop := min (start + s.bufferFrames) s.nFiles
    some ((start, stop), { s with currentFrame := stop })

/-- Exhaust the iterator, collecting the yielded axis-0 selections; `fuel`
bounds the number of `__next__` calls (any `fuel ≥ nFiles` is enough when
`bufferFrames > 0`). -/
def tiffBuffersAux : ℕ → TiffIterState → List (ℕ × ℕ)
  | 0, _ => []
  | fuel + 1, s =>
      match tiffNext s with
      | none => []
      | some (sel, s') => sel :: tiffBuffersAux fuel s'

/-- The full buffer sequence of a `TiffDataChunkIterator` over `n` files
with buffer size `b`, starting (as `__init__` does) at frame 0. -/
def tiffBuffers (n b : ℕ) : List (ℕ × ℕ) :=
  tiffBuffersAux n ⟨n, b, 0⟩

/-- `l` is a gap-free, non-overlapping, strictly increasing sequence of
nonempty index ranges tiling `[lo, hi)` exactly. -/
inductive Covers : ℕ → List (ℕ × ℕ) → ℕ → Prop
  | nil (n : ℕ) : Covers n [] n
  | cons (s e : ℕ) (rest : List (ℕ × ℕ)) (n : ℕ) :
      s < e → Covers e rest n → Covers s ((s, e) :: rest) n

/-- Extent along axis 0 of a yielded selection. -/
def extent (p : ℕ × ℕ) : ℕ := p.2 - p.1

/-! ## Sequential batch scan (`exp12_read_ophys.benchmark_sequential_batches`)

Lines 81-96: `n_batches = math.ceil(n_frames / batch_size)`; batch `i`
reads `data[t0:t1]` with `t0 = i * batch_size`,
`t1 = min(t0 + batch_size, n_frames)`, recording extent `t1 - t0`.
-/

/-- Axis-0 bounds of batch `i`. -/
def batchBounds (nFrames batchSize i : ℕ) : ℕ × ℕ :=
  (i * batchSize, min (i * batchSize + batchSize) nFrames)

/-- `math.ceil(n_frames / batch_size)` for a positive batch size. -/
def nBatches (nFrames batchSize : ℕ) : ℕ :=
  (nFrames + batchSize - 1) / batchSize

/-- The recorded `batch_sizes` list of one scan. -/
def batchSizes (nFrames batchSize : ℕ) : List ℕ :=
  (List.range (nBatches nFrames batchSize)).map
    (fun i => extent (batchBounds nFrames batchSize i))

/-! ## Random origin sampling (`exp12_read_ophys.benchmark_o4` lines 197-199)

`rng.integers(0, dim - patch_size + 1)`: `numpy.random.Generator.integers`
with `low = 0` and `high = dim - patch_size + 1` draws uniformly from
`[0, high)` and raises `ValueError: low >= high` when `high ≤ 0`.
-/

/-- The `high` argument passed to `rng.integers` for one spatial axis. -/
def integersHigh (dim patch : ℤ) : ℤ := dim - patch + 1

/-- Model of `rng.integers(0, high)`: the set of values the draw can
return, or the `ValueError` numpy raises when the range is empty. -/
def rngIntegersRange (high : ℤ) : Except String (List ℤ) :=
  if 0 < high then .ok (List.map Int.ofNat (List.range high.toNat))
  else .error "low >= high"

/-- The origin-sampling range of `benchmark_o4` for one spatial axis of
extent `dim` and patch size `patch`. -/
def originSampleRange (dim patch : ℤ) : Except String (List ℤ) :=
  rngIntegersRange (integersHigh dim patch)

/-! ## RNG determinism (`exp12_read_ophys.benchmark_o3` lines 137-145)

`benchmark_o3` builds `rng = np.random.default_rng(RANDOM_SEED)` with the
module constant `RANDOM_SEED = 42` (line 39) and draws
`frame_indices = rng.integers(0, n_frames, size=50)`. The PCG64 bit
generator is abstracted as an arbitrary deterministic generator; ambient
OS entropy, consulted by `default_rng()` only when no seed is given, is an
explicit parameter of the run.
-/

/-- `RANDOM_SEED` (line 39). -/
def RANDOM_SEED : ℕ := 42

/-- An abstract deterministic RNG implementation: seeded initialisation,
entropy-based initialisation (for `default_rng()` with no seed), and the
bounded-integers draw `rng.integers(0, high, size)`. -/
structure RngSpec (σ : Type) where
  seedInit : ℕ → σ
  entropyInit : ℕ → σ
  integers : σ → ℕ → ℕ → List ℕ × σ

/-- `np.random.default_rng(seed)`: a given seed determines the state; only
a missing seed consults the run's ambient entropy. -/
def defaultRng {σ : Type} (G : RngSpec σ) (seed : Option ℕ) (entropy : ℕ) : σ :=
  match seed with
  | some s => G.seedInit s
  | none => G.entropyInit entropy

/-- The `frame_indices` drawn by one run of `benchmark_o3` over `nFrames`
frames, in a run whose ambient OS entropy is `entropy`. -/
def o3FrameIndices {σ : Type} (G : RngSpec σ) (entropy nFrames : ℕ) : List ℕ :=
  (G.integers (defaultRng G (some RANDOM_SEED) entropy) nFrames 50).1

/-! ## Stats assembly after export (`exp12_write_ophys.py` lines 131-139,
`exp12_write_ophys_tiff_to_nwb.py` lines 212-220)

```
stats = f"{config_number} {n_frames} {net_time_write_s:.4f} "
try:    stats += f"{file_size_gb} "
except OSError: stats += "N/A "
return stats
```
The already-formatted write time and the formatted size are abstract
strings; the size query is `Except` over an `OSError`.
-/

/-- The stats prefix `f"{config_number} {n_frames} {net_time_write_s:.4f} "`. -/
def statsBase (configNumber nFrames : ℕ) (writeTime : String) : String :=
  toString configNumber ++ " " ++ toString nFrames ++ " " ++ writeTime ++ " "

/-- The returned stats string: the base, then the formatted file size or
`"N/A "` when the size query raises `OSError`. -/
def statsLine (configNumber nFrames : ℕ) (writeTime : String)
    (sizeQuery : Except Unit String) : String :=
  statsBase configNumber nFrames writeTime ++
    match sizeQuery with
    | .ok size => size ++ " "
    | .error _ => "N/A "

/-! ## Pipeline step order and failure points

The observable effects of one `process_config` run, used to show which
steps an early assertion failure prevents.
-/

/-- Externally observable steps of a `process_config` run. -/
inductive Effect where
  | readFirstTiff : Effect
  | openInput : Effect
  | buildIterator : Effect
  | writeOutput : Effect
  deriving DecidableEq, Repr

/-- Python truthiness of an `h5py` `chunks` value (`None` or a tuple). -/
def pyTruthyChunks (chunks : Option (List ℕ)) : Bool :=
  match chunks with
  | none => false
  | some l => !l.isEmpty

/-- The source dataset of the reference `TwoPhotonSeries`: its shape and
its HDF5 chunk shape (`None` when stored contiguously). -/
structure H5Dataset where
  shape : List ℕ
  chunks : Option (List ℕ)
  deriving DecidableEq, Repr

/-- Message of the `assert orig_2pseries.data.chunks` failure
(`exp12_write_ophys.py` line 78). -/
def chunksAssertMsg : String := "AssertionError: orig_2pseries.data.chunks"

/-- The array-backed `exp12_write_ophys.process_config` (lines 37-139) as
a trace of performed effects plus an outcome: parameter processing, then
opening the input file, then `assert orig_2pseries.data.chunks` (line 78),
then iterator construction and the export, then the stats line. An error
truncates the trace at the failing step. -/
def processConfigOphys (configNumber : ℕ) (params : List String)
    (data : H5Dataset) (writeTime : String) (sizeQuery : Except Unit String) :
    List Effect × Except String String :=
  match processParamsOphys configNumber params with
  | .error e => ([], .error e)
  | .ok _ =>
      if pyTruthyChunks data.chunks then
        ([.openInput, .buildIterator, .writeOutput],
         .ok (statsLine configNumber (data.shape.headD 0) writeTime sizeQuery))
      else
        ([.openInput], .error chunksAssertMsg)

/-- Element dtype of a decoded TIFF frame. -/
inductive Dtype where
  | uint8 : Dtype
  | uint16 : Dtype
  | int16 : Dtype
  | float32 : Dtype
  | other : String → Dtype
  deriving DecidableEq, Repr

/-- One decoded TIFF frame: `tifffile.imread` yields a height × width
array of some dtype. -/
structure TiffFrame where
  height : ℕ
  width : ℕ
  dtype : Dtype
  deriving DecidableEq, Repr

/-- Message of the `assert dtype == np.uint16` failure
(`exp12_write_ophys_tiff_to_nwb.py` line 136). -/
def dtypeAssertMsg : String := "AssertionError: Expected uint16 data type"

/-- Message of the empty TIFF directory error (lines 126-127). -/
def noTiffMsg : String := "No TIFF files found"

/-- The TIFF-backed `exp12_write_ophys_tiff_to_nwb.process_config`
(lines 86-220) as a trace of performed effects plus an outcome: parameter
processing, the sorted TIFF listing (empty → `ValueError` before any
read), reading the first frame, `assert dtype == np.uint16` (line 136),
then opening the reference NWB file, the frame-count and dimension
validations (lines 142-159), the iterator and the export. -/
def processConfigTiff (configNumber : ℕ) (params : List String)
    (tiffFiles : List TiffFrame) (origShape : List ℕ) (writeTime : String)
    (sizeQuery : Except Unit String) : List Effect × Except String String :=
  match processParamsTiff configNumber params with
  | .error e => ([], .error e)
  | .ok _ =>
      match tiffFiles with
      | [] => ([], .error noTiffMsg)
      | first :: _ =>
          if first.dtype ≠ Dtype.uint16 then
            ([.readFirstTiff], .error dtypeAssertMsg)
          else if tiffFiles.length ≠ origShape.headD 0 then
            ([.readFirstTiff, .openInput], .error "frame count mismatch")
          else if first.width ≠ origShape.getD 1 0 ∨
              first.height ≠ origShape.getD 2 0 then
            ([.readFirstTiff, .openInput], .error "dimension mismatch")
          else
            ([.readFirstTiff, .openInput, .buildIterator, .writeOutput],
             .ok (statsLine configNumber tiffFiles.length writeTime sizeQuery))

/-! ## Helper lemmas about the iterator runs -/

lemma tiffBuffersAux_of_le (fuel n b c : ℕ) (h : n ≤ c) :
    tiffBuffersAux fuel ⟨n, b, c⟩ = [] := by
  cases fuel with
  | zero => rfl
  | succ fuel => simp [tiffBuffersAux, tiffNext, h]

lemma tiffBuffersAux_cons (fuel n b c : ℕ) (h : c < n) :
    tiffBuffersAux (fuel + 1) ⟨n, b, c⟩ =
      (c, min (c + b) n) :: tiffBuffersAux fuel ⟨n, b, min (c + b) n⟩ := by
  simp [tiffBuffersAux, tiffNext, Nat.not_le.mpr h]

lemma tiffBuffersAux_ne_nil (fuel n b c : ℕ) (hf : 1 ≤ fuel) (h : c < n) :
    tiffBuffersAux fuel ⟨n, b, c⟩ ≠ [] := by
  obtain ⟨fuel, rfl⟩ : ∃ k, fuel = k + 1 := ⟨fuel - 1, by omega⟩
  rw [tiffBuffersAux_cons _ _ _ _ h]
  simp

lemma tiffBuffersAux_covers (b : ℕ) (hb : 0 < b) :
    ∀ (fuel n c : ℕ), n - c ≤ fuel → c ≤ n →
      Covers c (tiffBuffersAux fuel ⟨n, b, c⟩) n := by
  intro fuel
  induction fuel with
  | zero =>
      intro n c hf hc
      have h : c = n := by omega
      subst h
      exact Covers.nil c
  | succ fuel ih =>
      intro n c hf hc
      rcases Nat.lt_or_ge c n with h | h
      · rw [tiffBuffersAux_cons fuel n b c h]
        have hm1 : c < min (c + b) n := lt_min (by omega) h
        have hm2 : min (c + b) n ≤ n := min_le_right _ _
        exact Covers.cons _ _ _ _ hm1 (ih n _ (by omega) hm2)
      · have heq : c = n := le_antisymm hc h
        subst heq
        rw [tiffBuffersAux_of_le _ _ _ _ le_rfl]
        exact Covers.nil c

lemma tiffBuffersAux_length (b : ℕ) (hb : 0 < b) :
    ∀ (fuel n c : ℕ), n - c ≤ fuel →
      (tiffBuffersAux fuel ⟨n, b, c⟩).length = (n - c + b - 1) / b := by
  intro fuel
  induction fuel with
  | zero =>
      intro n c hf
      have h : n - c = 0 := by omega
      rw [show tiffBuffersAux 0 ⟨n, b, c⟩ = [] from rfl, h]
      simp only [List.length_nil]
      exact (Nat.div_eq_of_lt (by omega)).symm
  | succ fuel ih =>
      intro n c hf
      rcases Nat.lt_or_ge c n with h | h
      · rw [tiffBuffersAux_cons fuel n b c h]
        have hm1 : c < min (c + b) n := lt_min (by omega) h
        have hm2 : min (c + b) n ≤ n := min_le_right _ _
        rw [List.length_cons, ih n (min (c + b) n) (by omega)]
        rcases le_or_lt n (c + b) with hcb | hcb
        · rw [min_eq_right hcb]
          have h1 : (n - n + b - 1) / b = 0 := Nat.div_eq_of_lt (by omega)
          have h2 : (n - c + b - 1) / b = 1 := by
            apply Nat.div_eq_of_lt_le
            · omega
            · omega
          omega
        · rw [min_eq_left (le_of_lt hcb)]
          have key : n - c + b - 1 = (n - (c + b) + b - 1) + b := by omega
          rw [key, Nat.add_div_right _ hb]
      · rw [tiffBuffersAux_of_le _ _ _ _ h]
        have h0 : n - c = 0 := by omega
        rw [h0]
        simp only [List.length_nil]
        exact (Nat.div_eq_of_lt (by omega)).symm

lemma tiffBuffersAux_sum (b : ℕ) (hb : 0 < b) :
    ∀ (fuel n c : ℕ), n - c ≤ fuel →
      ((tiffBuffersAux fuel ⟨n, b, c⟩).map extent).sum = n - c := by
  intro fuel
  induction fuel with
  | zero =>
      intro n c hf
      rw [show tiffBuffersAux 0 ⟨n, b, c⟩ = [] from rfl]
      simp
      omega
  | succ fuel ih =>
      intro n c hf
      rcases Nat.lt_or_ge c n with h | h
      · rw [tiffBuffersAux_cons fuel n b c h]
        have hm1 : c < min (c + b) n := lt_min (by omega) h
        have hm2 : min (c + b) n ≤ n := min_le_right _ _
        rw [List.map_cons, List.sum_cons, ih n (min (c + b) n) (by omega)]
        show min (c + b) n - c + (n - min (c + b) n) = n - c
        omega
      · rw [tiffBuffersAux_of_le _ _ _ _ h]
        simp
        omega

lemma tiffBuffersAux_dropLast (b : ℕ) (hb : 0 < b) :
    ∀ (fuel n c : ℕ), n - c ≤ fuel → c < n →
      ∀ p ∈ (tiffBuffersAux fuel ⟨n, b, c⟩).dropLast, extent p = b := by
  intro fuel
  induction fuel with
  | zero => intro n c hf hc; exfalso; omega
  | succ fuel ih =>
      intro n c hf hc p hp
      rw [tiffBuffersAux_cons fuel n b c hc] at hp
      rcases le_or_lt n (c + b) with hcb | hcb
      · rw [min_eq_right hcb, tiffBuffersAux_of_le fuel n b n le_rfl] at hp
        simp at hp
      · rw [min_eq_left (le_of_lt hcb)] at hp
        have hne : tiffBuffersAux fuel ⟨n, b, c + b⟩ ≠ [] :=
          tiffBuffersAux_ne_nil fuel n b (c + b) (by omega) (by omega)
        rw [List.dropLast_cons_of_ne_nil hne] at hp
        rcases List.mem_cons.mp hp with hp | hp
        · subst hp
          show c + b - c = b
          omega
        · exact ih n (c + b) (by omega) (by omega) p hp

lemma tiffBuffersAux_getLast (b : ℕ) (hb : 0 < b) :
    ∀ (fuel n c : ℕ), n - c ≤ fuel → c < n → b ∣ c →
      (tiffBuffersAux fuel ⟨n, b, c⟩).getLast?.map extent =
        some (if n % b = 0 then b else n % b) := by
  intro fuel
  induction fuel with
  | zero => intro n c hf hc _; exfalso; omega
  | succ fuel ih =>
      intro n c hf hc hdvd
      rw [tiffBuffersAux_cons fuel n b c hc]
      rcases le_or_lt n (c + b) with hcb | hcb
      · rw [min_eq_right hcb, tiffBuffersAux_of_le fuel n b n le_rfl]
        obtain ⟨q, rfl⟩ := hdvd
        show some (extent (b * q, n)) = some (if n % b = 0 then b else n % b)
        have h1 : n % b = (n - b * q) % b := by
          conv_lhs => rw [show n = (n - b * q) + b * q by omega]
          rw [Nat.add_mul_mod_self_left]
        have hrange1 : 1 ≤ n - b * q := by omega
        have hrange2 : n - b * q ≤ b := by omega
        rcases eq_or_lt_of_le hrange2 with heq | hlt
        · rw [h1, heq, Nat.mod_self]
          show some (n - b * q) = some b
          rw [heq]
        · rw [h1, Nat.mod_eq_of_lt hlt, if_neg (by omega)]
          rfl
      · rw [min_eq_left (le_of_lt hcb)]
        have hne : tiffBuffersAux fuel ⟨n, b, c + b⟩ ≠ [] :=
          tiffBuffersAux_ne_nil fuel n b (c + b) (by omega) (by omega)
        obtain ⟨y, ys, hys⟩ := List.exists_cons_of_ne_nil hne
        rw [hys, List.getLast?_cons_cons, ← hys]
        exact ih n (c + b) (by omega) (by omega) (dvd_add hdvd dvd_rfl)

/-! ## Helper lemmas about the sequential batch scan -/

lemma nBatches_eq_of_not_dvd (N S : ℕ) (hS : 0 < S) (hnd : ¬ S ∣ N) :
    nBatches N S = N / S + 1 := by
  have hN1 : 1 ≤ N := by
    rcases Nat.eq_zero_or_pos N with h | h
    · exact absurd (h ▸ dvd_zero S) hnd
    · exact h
  have e3 := Nat.succ_div (N - 1) S
  rw [show N - 1 + 1 = N from by omega] at e3
  rw [if_neg hnd, Nat.add_zero] at e3
  show (N + S - 1) / S = N / S + 1
  rw [show N + S - 1 = (N - 1) + S from by omega, Nat.add_div_right _ hS, ← e3]

lemma batch_extent_full (N S i : ℕ) (h : (i + 1) * S ≤ N) :
    extent (batchBounds N S i) = S := by
  show min (i * S + S) N - i * S = S
  have h' : i * S + S ≤ N := by
    calc i * S + S = (i + 1) * S := by ring
    _ ≤ N := h
  rw [min_eq_left h']
  exact Nat.add_sub_cancel_left (i * S) S

lemma batch_extent_last (N S : ℕ) (hS : 0 < S) :
    extent (batchBounds N S (N / S)) = N % S := by
  show min (N / S * S + S) N - N / S * S = N % S
  have hdm : N / S * S + N % S = N := Nat.div_add_mod' N S
  have hmod : N % S < S := Nat.mod_lt _ hS
  have key : ∀ q r : ℕ, q + r = N → r < S → min (q + S) N - q = r := by
    intro q r h1 h2
    rw [min_eq_right (by omega)]
    omega
  exact key _ _ hdm hmod

/-! ## Claim theorems -/

/-- C1: for every total frame count `n > 0` and buffer size `b > 0`, the
TIFF-backed chunked source iterator yields exactly `ceil(n/b)` buffers, in
strictly increasing, non-overlapping, gap-free order along axis 0 covering
`[0, n)` exactly once; every buffer has extent `b` except the last, whose
extent is `n mod b` (or `b` when `n mod b = 0`), and the extents sum
to `n`. -/
theorem claim_C1_tiff_iterator (n b : ℕ) (hn : 0 < n) (hb : 0 < b) :
    (tiffBuffers n b).length = (n + b - 1) / b ∧
    Covers 0 (tiffBuffers n b) n ∧
    (∀ p ∈ (tiffBuffers n b).dropLast, extent p = b) ∧
    (tiffBuffers n b).getLast?.map extent =
      some (if n % b = 0 then b else n % b) ∧
    ((tiffBuffers n b).map extent).sum = n := by
  refine ⟨?_, ?_, ?_, ?_, ?_⟩
  · have h := tiffBuffersAux_length b hb n n 0 (by omega)
    rwa [Nat.sub_zero] at h
  · exact tiffBuffersAux_covers b hb n n 0 (by omega) (Nat.zero_le n)
  · exact tiffBuffersAux_dropLast b hb n n 0 (by omega) hn
  · exact tiffBuffersAux_getLast b hb n n 0 (by omega) hn (dvd_zero b)
  · have h := tiffBuffersAux_sum b hb n n 0 (by omega)
    rwa [Nat.sub_zero] at h

/-- Witness for C1 at `n = 7`, `b = 3`. -/
theorem claim_C1_witness :
    (tiffBuffers 7 3).length = (7 + 3 - 1) / 3 ∧
    Covers 0 (tiffBuffers 7 3) 7 ∧
    (∀ p ∈ (tiffBuffers 7 3).dropLast, extent p = 3) ∧
    (tiffBuffers 7 3).getLast?.map extent =
      some (if 7 % 3 = 0 then 3 else 7 % 3) ∧
    ((tiffBuffers 7 3).map extent).sum = 7 :=
  claim_C1_tiff_iterator 7 3 (by decide) (by decide)

/-- C4: for every total frame count `N` and batch size `S > 0` with `N` not
divisible by `S`, the sequential batch scan records `ceil(N/S) = N/S + 1`
batches, every batch extent is `S` except the final one, which is
`N mod S`; consecutive batch bounds are adjacent starting at 0 and ending
at `N`; and `N = 1205`, `S = 500` yields extents `[500, 500, 205]`. -/
theorem claim_C4_sequential_batches (N S : ℕ) (hS : 0 < S) (hnd : ¬ S ∣ N) :
    (batchSizes N S).length = N / S + 1 ∧
    (∀ e ∈ (batchSizes N S).dropLast, e = S) ∧
    (batchSizes N S).getLast? = some (N % S) ∧
    (batchBounds N S 0).1 = 0 ∧
    (∀ i, i + 1 < nBatches N S →
      (batchBounds N S i).2 = (batchBounds N S (i + 1)).1) ∧
    (batchBounds N S (nBatches N S - 1)).2 = N ∧
    batchSizes 1205 500 = [500, 500, 205] := by
  have hk := nBatches_eq_of_not_dvd N S hS hnd
  refine ⟨?_, ?_, ?_, ?_, ?_, ?_, by decide⟩
  · simp only [batchSizes, List.length_map, List.length_range]
    exact hk
  · intro e he
    rw [batchSizes, hk, List.range_succ, List.map_append, List.map_singleton,
      List.dropLast_concat] at he
    obtain ⟨i, hi, rfl⟩ := List.mem_map.mp he
    rw [List.mem_range] at hi
    apply batch_extent_full
    calc (i + 1) * S ≤ (N / S) * S := Nat.mul_le_mul_right S (by omega)
    _ ≤ N := Nat.div_mul_le_self N S
  · rw [batchSizes, hk, List.range_succ, List.map_append, List.map_singleton,
      List.getLast?_concat]
    exact congrArg some (batch_extent_last N S hS)
  · simp [batchBounds]
  · intro i hi
    rw [hk] at hi
    show min (i * S + S) N = (i + 1) * S
    have h' : (i + 1) * S ≤ N := by
      calc (i + 1) * S ≤ (N / S) * S := Nat.mul_le_mul_right S (by omega)
      _ ≤ N := Nat.div_mul_le_self N S
    rw [show i * S + S = (i + 1) * S from by ring, min_eq_left h']
  · rw [hk]
    show min ((N / S + 1 - 1) * S + S) N = N
    simp only [Nat.add_sub_cancel]
    have hdm : N / S * S + N % S = N := Nat.div_add_mod' N S
    have hmod : N % S < S := Nat.mod_lt _ hS
    have key : ∀ q r : ℕ, q + r = N → r < S → min (q + S) N = N := by
      intro q r h1 h2
      exact min_eq_right (by omega)
    exact key _ _ hdm hmod

/-- Witness for C4 at `N = 1205`, `S = 500`. -/
theorem claim_C4_witness :
    (batchSizes 1205 500).length = 1205 / 500 + 1 ∧
    (∀ e ∈ (batchSizes 1205 500).dropLast, e = 500) ∧
    (batchSizes 1205 500).getLast? = some (1205 % 500) ∧
    (batchBounds 1205 500 0).1 = 0 ∧
    (∀ i, i + 1 < nBatches 1205 500 →
      (batchBounds 1205 500 i).2 = (batchBounds 1205 500 (i + 1)).1) ∧
    (batchBounds 1205 500 (nBatches 1205 500 - 1)).2 = 1205 ∧
    batchSizes 1205 500 = [500, 500, 205] :=
  claim_C4_sequential_batches 1205 500 (by decide) (by decide)

/-- C2: for every config row whose codec name is any of the four `blosc-*`
variants, codec-parameter assembly yields the seven-element tuple
`(0,0,0,0, shuffle, 0, level)` with `shuffle` read from parameter field 2
(`params[4]`) and `level` from parameter field 1 (`params[3]`); in
particular the row `true blosc-zstd 32004 5 3` yields auto chunk shape,
numeric filter id 32004 and parameter tuple `(0,0,0,0,3,0,5)`, in both
writers. -/
theorem claim_C2_blosc_params :
    (∀ (name p3 p4 : String) (a b : ℤ),
      (name = "blosc-zstd" ∨ name = "blosc-lz4hc" ∨ name = "blosc-blosclz" ∨
        name = "blosc-lz4") →
      pyInt? p3 = some a → pyInt? p4 = some b →
      compOpSpec name p3 p4 = .ok (.tuple [0, 0, 0, 0, b, 0, a])) ∧
    processParamsOphys 7 ["true", "blosc-zstd", "32004", "5", "3"] =
      .ok ⟨.auto, .byId 32004, .tuple [0, 0, 0, 0, 3, 0, 5]⟩ ∧
    processParamsTiff 7 ["true", "blosc-zstd", "32004", "5", "3"] =
      .ok ⟨.auto, .byId 32004, .tuple [0, 0, 0, 0, 3, 0, 5]⟩ := by
  refine ⟨?_, by decide, by decide⟩
  intro name p3 p4 a b hname hp3 hp4
  rcases hname with rfl | rfl | rfl | rfl <;>
    simp [compOpSpec, hp3, hp4]

/-- Witness for C2 with codec `blosc-lz4`, parameter fields `7` and `2`. -/
theorem claim_C2_witness :
    compOpSpec "blosc-lz4" "7" "2" = .ok (.tuple [0, 0, 0, 0, 2, 0, 7]) :=
  claim_C2_blosc_params.1 "blosc-lz4" "7" "2" 7 2 (by simp) (by decide)
    (by decide)

/-- C3 counterexample: the chunk-shape field `"auto"` does not select the
store's default chunk shape; both writers fall into the integer-tuple
parse, which raises `ValueError`. -/
theorem claim_C3_counterexample :
    chunkSpecOphys "auto" = .error (intErr "auto") ∧
    chunkSpecTiff "auto" = .error (intErr "auto") ∧
    chunkSpecOphys "auto" ≠ .ok ChunkSpec.auto ∧
    chunkSpecTiff "auto" ≠ .ok ChunkSpec.auto := by
  refine ⟨by decide, by decide, ?_, ?_⟩ <;> decide

/-- C3 (amended): the chunk-shape field resolves as: literal `"none"`
(case-insensitive) yields no chunking in the array-backed writer; literal
`"true"` (case-insensitive, and only `"true"`, not `"auto"`) yields the
store's default chunk shape in both writers; any other value is parsed as
a comma-separated tuple of integers, raising `ValueError` when any
component is not an integer literal. -/
theorem claim_C3_chunk_field (s : String) :
    (pyLower s = "none" → chunkSpecOphys s = .ok .contiguous) ∧
    (pyLower s = "true" →
      chunkSpecOphys s = .ok .auto ∧ chunkSpecTiff s = .ok .auto) ∧
    (∀ l : List ℤ, pyLower s ≠ "none" → pyLower s ≠ "true" →
      (splitComma s).mapM pyInt? = some l →
      chunkSpecOphys s = .ok (.explicit l) ∧
      chunkSpecTiff s = .ok (.explicit l)) ∧
    (pyLower s ≠ "none" → pyLower s ≠ "true" →
      (splitComma s).mapM pyInt? = none →
      chunkSpecOphys s = .error (intErr s) ∧
      chunkSpecTiff s = .error (intErr s)) := by
  refine ⟨?_, ?_, ?_, ?_⟩
  · intro h
    simp [chunkSpecOphys, h]
  · intro h
    constructor
    · rw [chunkSpecOphys, if_neg (by rw [h]; decide), if_pos h]
    · rw [chunkSpecTiff, if_pos h]
  · intro l hn ht hl
    constructor
    · rw [chunkSpecOphys, if_neg hn, if_neg ht, parseChunkTuple, hl]
    · rw [chunkSpecTiff, if_neg ht, parseChunkTuple, hl]
  · intro hn ht hl
    constructor
    · rw [chunkSpecOphys, if_neg hn, if_neg ht, parseChunkTuple, hl]
    · rw [chunkSpecTiff, if_neg ht, parseChunkTuple, hl]

/-- Witness for C3 (amended) at the fields `"None"`, `"TRUE"`,
`"64,128,128"` and `"auto"`. -/
theorem claim_C3_witness :
    chunkSpecOphys "None" = .ok .contiguous ∧
    chunkSpecOphys "TRUE" = .ok .auto ∧
    chunkSpecTiff "TRUE" = .ok .auto ∧
    chunkSpecOphys "64,128,128" = .ok (.explicit [64, 128, 128]) ∧
    chunkSpecTiff "auto" = .error (intErr "auto") :=
  ⟨(claim_C3_chunk_field "None").1 (by decide),
   ((claim_C3_chunk_field "TRUE").2.1 (by decide)).1,
   ((claim_C3_chunk_field "TRUE").2.1 (by decide)).2,
   ((claim_C3_chunk_field "64,128,128").2.2.1 [64, 128, 128] (by decide)
     (by decide) (by decide)).1,
   ((claim_C3_chunk_field "auto").2.2.2 (by decide) (by decide) (by decide)).2⟩

/-- C5 counterexample: at spatial extent `D = 8` and patch size `P = 16`
(so `P > D`), the origin sampling of the spatial-patch pattern does not
degenerate to the single origin 0 — `rng.integers(0, 8 - 16 + 1)` raises
`ValueError: low >= high`. -/
theorem claim_C5_counterexample :
    (8 : ℤ) < 16 ∧
    originSampleRange 8 16 = .error "low >= high" ∧
    originSampleRange 8 16 ≠ .ok [0] := by
  refine ⟨by decide, by decide, by decide⟩

/-- C5 (amended): for a spatial axis of extent `d` and patch size
`0 < p ≤ d` the origin sampling never produces an out-of-bounds window
(every sampled origin `o` has `0 ≤ o` and `o + p ≤ d`), and when `p = d`
the range degenerates to the single origin 0; when `p > d` the sampling
raises `ValueError` instead of sampling. -/
theorem claim_C5_origin_sampling (d p : ℤ) :
    (0 < p → p ≤ d →
      ∃ l, originSampleRange d p = .ok l ∧ ∀ o ∈ l, 0 ≤ o ∧ o + p ≤ d) ∧
    (0 < p → p = d → originSampleRange d p = .ok [0]) ∧
    (d < p → originSampleRange d p = .error "low >= high") := by
  refine ⟨?_, ?_, ?_⟩
  · intro hp hpd
    have hpos : 0 < integersHigh d p := by
      unfold integersHigh
      omega
    refine ⟨List.map Int.ofNat (List.range (integersHigh d p).toNat),
      ?_, ?_⟩
    · rw [originSampleRange, rngIntegersRange, if_pos hpos]
    · intro o ho
      obtain ⟨k, hk, rfl⟩ := List.mem_map.mp ho
      rw [List.mem_range] at hk
      unfold integersHigh at hpos hk
      simp only [Int.ofNat_eq_natCast]
      constructor <;> omega
  · intro hp hpd
    subst hpd
    rw [originSampleRange, rngIntegersRange,
      if_pos (show (0 : ℤ) < integersHigh p p by unfold integersHigh; omega)]
    have h1 : integersHigh p p = 1 := by
      unfold integersHigh
      omega
    rw [h1]
    decide
  · intro hdp
    rw [originSampleRange, rngIntegersRange,
      if_neg (show ¬(0 : ℤ) < integersHigh d p by unfold integersHigh; omega)]

/-- Witness for C5 (amended) at `d = 16, p = 16` and `d = 3, p = 5`. -/
theorem claim_C5_witness :
    originSampleRange 16 16 = .ok [0] ∧
    originSampleRange 3 5 = .error "low >= high" :=
  ⟨(claim_C5_origin_sampling 16 16).2.1 (by decide) (by decide),
   (claim_C5_origin_sampling 3 5).2.2 (by decide)⟩

/-- C6: two runs of the random single-index pattern over the same frame
count produce identical sampled frame indices, for every deterministic
generator implementation and regardless of each run's ambient OS entropy,
because `benchmark_o3` seeds `default_rng` with the fixed constant
`RANDOM_SEED`. -/
theorem claim_C6_rng_determinism {σ : Type} (G : RngSpec σ)
    (entropy₁ entropy₂ nFrames : ℕ) :
    o3FrameIndices G entropy₁ nFrames = o3FrameIndices G entropy₂ nFrames :=
  rfl

/-- Helper: a parameter list of length other than 5 makes the array-backed
front end fail with the field-count message. -/
lemma processParamsOphys_length_ne (c : ℕ) (ps : List String)
    (h : ps.length ≠ 5) :
    processParamsOphys c ps = .error (configFormatMsg c ps.length) := by
  rcases ps with _ | ⟨p0, _ | ⟨p1, _ | ⟨p2, _ | ⟨p3, _ | ⟨p4, _ | ⟨p5, rest⟩⟩⟩⟩⟩⟩
  all_goals try rfl
  simp at h

/-- Helper: same for the TIFF-backed front end. -/
lemma processParamsTiff_length_ne (c : ℕ) (ps : List String)
    (h : ps.length ≠ 5) :
    processParamsTiff c ps = .error (configFormatMsg c ps.length) := by
  rcases ps with _ | ⟨p0, _ | ⟨p1, _ | ⟨p2, _ | ⟨p3, _ | ⟨p4, _ | ⟨p5, rest⟩⟩⟩⟩⟩⟩
  all_goals try rfl
  simp at h

/-- C7: a config row with a field count other than exactly 5 makes both
`process_config`s fail with the config-format message, which cites the
offending line number (the rendered `configNumber` occurs in the message);
a row with exactly 5 fields passes this check. -/
theorem claim_C7_param_count (c : ℕ) (ps : List String) :
    (ps.length ≠ 5 →
      checkParamCount c ps = .error (configFormatMsg c ps.length) ∧
      processParamsOphys c ps = .error (configFormatMsg c ps.length) ∧
      processParamsTiff c ps = .error (configFormatMsg c ps.length) ∧
      ∃ pre post, configFormatMsg c ps.length = pre ++ toString c ++ post) ∧
    (ps.length = 5 → checkParamCount c ps = .ok ()) := by
  constructor
  · intro h
    refine ⟨?_, processParamsOphys_length_ne c ps h,
      processParamsTiff_length_ne c ps h,
      "Config line ",
      " requires exactly 5 parameters, got " ++ toString ps.length, ?_⟩
    · rw [checkParamCount, if_neg h]
    · simp [configFormatMsg, String.append_assoc]
  · intro h
    rw [checkParamCount, if_pos h]

/-- Witness for C7: a 4-field row fails citing line 3; a 5-field row
passes. -/
theorem claim_C7_witness :
    processParamsOphys 3 ["a", "b", "c", "d"] =
      .error (configFormatMsg 3 4) ∧
    checkParamCount 3 ["true", "gzip", "NA", "0", "4"] = .ok () :=
  ⟨((claim_C7_param_count 3 ["a", "b", "c", "d"]).1 (by decide)).2.1,
   (claim_C7_param_count 3 ["true", "gzip", "NA", "0", "4"]).2 (by decide)⟩

/-- C8: when the post-export file-size query raises `OSError`, the run
does not abort: the stats string records the size as `"N/A "` and still
contains the config number, the frame count and the write time. -/
theorem claim_C8_stats_na (c n : ℕ) (t : String) :
    statsLine c n t (.error ()) = statsBase c n t ++ "N/A " ∧
    (∃ rest, statsLine c n t (.error ()) = toString c ++ rest) ∧
    (∃ pre post, statsLine c n t (.error ()) = pre ++ toString n ++ post) ∧
    (∃ pre post, statsLine c n t (.error ()) = pre ++ t ++ post) ∧
    (∃ pre, statsLine c n t (.error ()) = pre ++ "N/A ") := by
  refine ⟨rfl, ⟨" " ++ toString n ++ (" " ++ (t ++ (" " ++ "N/A "))), ?_⟩,
    ⟨toString c ++ " ", " " ++ (t ++ (" " ++ "N/A ")), ?_⟩,
    ⟨toString c ++ " " ++ toString n ++ " ", " " ++ "N/A ", ?_⟩,
    ⟨statsBase c n t, rfl⟩⟩ <;>
  simp [statsLine, statsBase, String.append_assoc]

/-- C9: the array-backed write pipeline requires the reference series
dataset to be chunked: with a contiguous source dataset (`chunks` is
`None`), `process_config` fails on the line-78 assertion after opening the
input file, before constructing the data iterator and before writing any
output. -/
theorem claim_C9_requires_chunked (c : ℕ) (ps : List String)
    (d : H5Dataset) (t : String) (sq : Except Unit String)
    (cfg : ConfigParsed) (hok : processParamsOphys c ps = .ok cfg)
    (hchunks : d.chunks = Option.none) :
    processConfigOphys c ps d t sq =
      ([Effect.openInput], .error chunksAssertMsg) ∧
    Effect.buildIterator ∉ (processConfigOphys c ps d t sq).1 ∧
    Effect.writeOutput ∉ (processConfigOphys c ps d t sq).1 := by
  have hres : processConfigOphys c ps d t sq =
      ([Effect.openInput], .error chunksAssertMsg) := by
    simp [processConfigOphys, hok, pyTruthyChunks, hchunks]
  refine ⟨hres, ?_, ?_⟩ <;> rw [hres] <;> decide

/-- Witness for C9: a valid config row and a contiguous 10×512×512 source
dataset. -/
theorem claim_C9_witness :
    processConfigOphys 1 ["true", "gzip", "NA", "0", "4"]
        ⟨[10, 512, 512], Option.none⟩ "0.1000" (.error ()) =
      ([Effect.openInput], .error chunksAssertMsg) ∧
    Effect.buildIterator ∉
      (processConfigOphys 1 ["true", "gzip", "NA", "0", "4"]
        ⟨[10, 512, 512], Option.none⟩ "0.1000" (.error ())).1 ∧
    Effect.writeOutput ∉
      (processConfigOphys 1 ["true", "gzip", "NA", "0", "4"]
        ⟨[10, 512, 512], Option.none⟩ "0.1000" (.error ())).1 :=
  claim_C9_requires_chunked 1 ["true", "gzip", "NA", "0", "4"]
    ⟨[10, 512, 512], Option.none⟩ "0.1000" (.error ())
    ⟨.auto, .byName "gzip", .scalar 4⟩ (by decide) rfl

/-- C10: the TIFF-backed write pipeline requires uint16 frames: when the
first TIFF frame has any other dtype, `process_config` fails on the
line-136 assertion after reading that frame, before opening the reference
NWB file and before producing any output. -/
theorem claim_C10_requires_uint16 (c : ℕ) (ps : List String)
    (first : TiffFrame) (rest : List TiffFrame) (orig : List ℕ)
    (t : String) (sq : Except Unit String) (cfg : ConfigParsed)
    (hok : processParamsTiff c ps = .ok cfg)
    (hd : first.dtype ≠ Dtype.uint16) :
    processConfigTiff c ps (first :: rest) orig t sq =
      ([Effect.readFirstTiff], .error dtypeAssertMsg) ∧
    Effect.openInput ∉ (processConfigTiff c ps (first :: rest) orig t sq).1 ∧
    Effect.writeOutput ∉
      (processConfigTiff c ps (first :: rest) orig t sq).1 := by
  have hres : processConfigTiff c ps (first :: rest) orig t sq =
      ([Effect.readFirstTiff], .error dtypeAssertMsg) := by
    simp [processConfigTiff, hok, hd]
  refine ⟨hres, ?_, ?_⟩ <;> rw [hres] <;> decide

/-- Witness for C10: a valid config row and a float32 first frame. -/
theorem claim_C10_witness :
    processConfigTiff 2 ["true", "gzip", "NA", "0", "4"]
        [⟨512, 512, Dtype.float32⟩] [10, 512, 512] "0.1000" (.error ()) =
      ([Effect.readFirstTiff], .error dtypeAssertMsg) ∧
    Effect.openInput ∉
      (processConfigTiff 2 ["true", "gzip", "NA", "0", "4"]
        [⟨512, 512, Dtype.float32⟩] [10, 512, 512] "0.1000"
        (.error ())).1 ∧
    Effect.writeOutput ∉
      (processConfigTiff 2 ["true", "gzip", "NA", "0", "4"]
        [⟨512, 512, Dtype.float32⟩] [10, 512, 512] "0.1000"
        (.error ())).1 :=
  claim_C10_requires_uint16 2 ["true", "gzip", "NA", "0", "4"]
    ⟨512, 512, Dtype.float32⟩ [] [10, 512, 512] "0.1000" (.error ())
    ⟨.auto, .byName "gzip", .scalar 4⟩ (by decide) (by decide)

end NWBEval
